import Mathlib

/-!
Verification of the stock-analysis dashboard's data-acquisition-and-alignment
pipeline (`script.js`), as a shallow embedding in Lean 4.

Modelling conventions:
- JS numbers are modelled as `ℚ` (the spec fixes exact arithmetic means;
  rounding is a presentation concern) and Unix timestamps as `ℤ`.
- A JS array access `a[i]` that may be out of bounds is the optional list
  access `l[i]?` (`none` for JS `undefined`); a JS comparison with a possibly
  `undefined` operand is modelled by `jsGT` / `jsGE0`, which are `false`
  whenever an operand is `undefined`, matching JS semantics.
- A `fetch` call's settlement is modelled by `FetchOutcome`: either a
  network-level rejection or an HTTP response with its `ok` flag and decoded
  JSON body.  `Promise.all` over the seven endpoint promises is modelled
  untimed (`fetchAllEndpoints`, error identity taken in object-key order) and
  timed (`promiseAll`, which records at which settle time the combined
  promise itself settles: JS `Promise.all` rejects as soon as the first
  rejection settles and fulfills only once every promise has fulfilled).
- The dashboard coordinator (`fetchAndDisplayDashboard`) is an async function
  whose lifetime spans a request phase (the re-entrancy guard, issuing the
  orchestrator call) and a settle phase (the try block's processing or error
  handling, plus the `finally` reset of the loading flag).  It is embedded as
  a step function on an explicit application state, with events for a cycle
  request, a key submission (`handleKeySubmission`, which itself calls
  `fetchAndDisplayDashboard`) and the settlement of the in-flight cycle.
  Payload fields that the processing stages dereference without validation
  (`metricsData.metric`, the rsi/macd arrays) are optional, and those stages
  return errors exactly where the JS throws, so the partially-updated-render
  behavior of the real try block is representable.
-/

namespace StockDash

/-- volume/histogram "up" color literal from `script.js` lines 244 and 255. -/
def upVolColor : String := "rgba(38, 166, 154, 0.5)"

/-- volume/histogram "down" color literal from `script.js` lines 244 and 255. -/
def downVolColor : String := "rgba(239, 83, 80, 0.5)"

/-- company profile payload (fields read by `updateProfileUI`). -/
structure ProfilePayload where
  name : String
  ticker : String
  logo : String
  weburl : String
  exchange : String
  finnhubIndustry : String
  deriving DecidableEq, Repr

/-- quote payload (`quote.c` is the current price, read by `updateMetricsUI`). -/
structure QuotePayload where
  c : ℚ
  deriving DecidableEq, Repr

/-- the fields of `metricsData.metric` read by `updateMetricsUI`
(`week52High`/`week52Low` stand for the JSON keys `52WeekHigh`/`52WeekLow`,
which cannot start a Lean identifier). -/
structure MetricFields where
  marketCapitalization : ℚ
  week52High : ℚ
  week52Low : ℚ
  peNormalizedAnnual : ℚ
  deriving DecidableEq, Repr

/-- fundamental metrics payload.  The `metric` object is `Option` because
the orchestrator never validates this payload's shape: a transport-ok body
without a `metric` object is representable, and `updateMetricsUI` then
throws on `metrics.marketCapitalization` (property access on
`undefined`). -/
structure MetricsPayload where
  metric : Option MetricFields
  deriving DecidableEq, Repr

/-- one company-news article (fields read by `updateNewsUI`). -/
structure NewsItem where
  url : String
  headline : String
  source : String
  datetime : ℤ
  deriving DecidableEq, Repr

/-- candle payload: status sentinel `s` plus the parallel OHLCV arrays. -/
structure CandlesPayload where
  s : String
  t : List ℤ
  o : List ℚ
  h : List ℚ
  l : List ℚ
  c : List ℚ
  v : List ℚ
  deriving DecidableEq, Repr

/-- RSI indicator payload: timestamps plus the `rsi` value array.  Both
arrays are `Option` because only the candles payload carries a validated
status gate: a transport-ok indicator body without its arrays (e.g. a
`no_data` response) reaches `updateChartsUI`, where `data.rsi.t.map`
throws when `t` is absent. -/
structure RsiPayload where
  t : Option (List ℤ)
  rsi : Option (List ℚ)
  deriving DecidableEq, Repr

/-- MACD indicator payload: timestamps plus line, signal and histogram
arrays, `Option` for the same reason as `RsiPayload`. -/
structure MacdPayload where
  t : Option (List ℤ)
  macd : Option (List ℚ)
  signal : Option (List ℚ)
  macdHist : Option (List ℚ)
  deriving DecidableEq, Repr

/-- the assembled result bundle of `fetchAllEndpoints`: one decoded payload
per endpoint key, in the object-key order of `script.js` lines 151-159. -/
structure Bundle where
  profile : ProfilePayload
  quote : QuotePayload
  metrics : MetricsPayload
  candles : CandlesPayload
  rsi : RsiPayload
  macd : MacdPayload
  news : List NewsItem
  deriving DecidableEq, Repr

/-- `calculateSMA` (`script.js` lines 358-370).  The argument is an
`Option (List ℚ)` because the JS guard `!data` also catches a `null` or
`undefined` close-price array, not only a too-short one.  The outer loop
runs `i` from `period - 1` to `data.length - 1` and the inner loop sums
`data[i - j]` for `j` from `0` to `period - 1`, pushing `sum / period`. -/
def calculateSMA (data : Option (List ℚ)) (period : ℕ) : List ℚ :=
  match data with
  | none => []
  | some d =>
    if d.length < period then []
    else
      (List.range' (period - 1) (d.length - (period - 1))).map fun i =>
        (((List.range period).map fun j => d.getD (i - j) 0).sum) / (period : ℚ)

/-- sum of a mapped `List.range` as a `Finset.range` sum. -/
lemma sum_map_range (f : ℕ → ℚ) (n : ℕ) :
    ((List.range n).map f).sum = ∑ j ∈ Finset.range n, f j := by
  induction n with
  | zero => simp
  | succ n ih =>
    rw [List.range_succ, List.map_append, List.sum_append, Finset.sum_range_succ, ih]
    simp

/-- the sum of the in-bounds window `s[k .. k+n-1]` as an indexed sum. -/
lemma sum_take_drop (s : List ℚ) (k n : ℕ) (h : k + n ≤ s.length) :
    ((s.drop k).take n).sum = ∑ m ∈ Finset.range n, s.getD (k + m) 0 := by
  induction n with
  | zero => simp
  | succ n ih =>
    rw [List.take_succ, List.sum_append, Finset.sum_range_succ,
      ih (by omega)]
    have hb : k + n < s.length := by omega
    rw [List.getElem?_drop, List.getElem?_eq_getElem hb]
    rw [List.getD_eq_getElem?_getD, List.getElem?_eq_getElem hb]
    simp

/-- the inner loop of `calculateSMA` sums the window `s[k .. k+period-1]`
(it walks it in reverse index order, which leaves the sum unchanged). -/
lemma window_sum (s : List ℚ) (k period : ℕ) (hp : 1 ≤ period)
    (h : k + period ≤ s.length) :
    ((List.range period).map fun j => s.getD (period - 1 + k - j) 0).sum
      = ((s.drop k).take period).sum := by
  rw [sum_map_range, sum_take_drop s k period h]
  rw [← Finset.sum_range_reflect (fun m => s.getD (k + m) 0) period]
  refine Finset.sum_congr rfl fun j hj => ?_
  have hj' : j < period := Finset.mem_range.mp hj
  congr 1
  omega

/-- C1: for `period ≥ 1` and `len(s) ≥ period`, `calculateSMA` returns
`len(s) - period + 1` values, and the `k`-th (from 0, in output order) is
the arithmetic mean of the window `s[k .. k+period-1]` (a window of exactly
`period` elements). -/
theorem calculateSMA_spec (s : List ℚ) (period : ℕ)
    (h1 : 1 ≤ period) (h2 : period ≤ s.length) :
    (calculateSMA (some s) period).length = s.length - period + 1 ∧
    ∀ k, k < s.length - period + 1 →
      ((s.drop k).take period).length = period ∧
      (calculateSMA (some s) period)[k]?
        = some (((s.drop k).take period).sum / (period : ℚ)) := by
  have hnl : ¬ s.length < period := not_lt.2 h2
  constructor
  · simp only [calculateSMA, if_neg hnl, List.length_map, List.length_range']
    omega
  · intro k hk
    have hkb : k + period ≤ s.length := by omega
    constructor
    · rw [List.length_take, List.length_drop]
      omega
    · simp only [calculateSMA, if_neg hnl, List.getElem?_map]
      have hkn : k < s.length - (period - 1) := by omega
      rw [List.getElem?_range' _ _ hkn]
      simp only [Option.map_some', one_mul]
      rw [window_sum s k period h1 hkb]

/-- witness for C1 at `s = [1, 2, 3, 4]`, `period = 2`: three outputs, the
second being the mean `(2 + 3) / 2` of the window `[2, 3]`. -/
theorem calculateSMA_spec_witness :
    (1 ≤ 2 ∧ 2 ≤ ([1, 2, 3, 4] : List ℚ).length) ∧
    (calculateSMA (some [1, 2, 3, 4]) 2).length
      = ([1, 2, 3, 4] : List ℚ).length - 2 + 1 ∧
    (calculateSMA (some [1, 2, 3, 4]) 2)[1]?
      = some (((([1, 2, 3, 4] : List ℚ).drop 1).take 2).sum / (2 : ℚ)) :=
  ⟨⟨by decide, by decide⟩,
   (calculateSMA_spec [1, 2, 3, 4] 2 (by decide) (by decide)).1,
   ((calculateSMA_spec [1, 2, 3, 4] 2 (by decide) (by decide)).2 1 (by decide)).2⟩

/-- C6: for `period ≥ 1` and `len(s) < period`, `calculateSMA` returns the
empty list (a normal result of the insufficient-data guard, not an error). -/
theorem calculateSMA_insufficient (s : List ℚ) (period : ℕ)
    (_h1 : 1 ≤ period) (h2 : s.length < period) :
    calculateSMA (some s) period = [] := by
  simp [calculateSMA, h2]

/-- witness for C6 at `s = [1]`, `period = 2`. -/
theorem calculateSMA_insufficient_witness :
    (1 ≤ 2 ∧ ([1] : List ℚ).length < 2) ∧ calculateSMA (some [1]) 2 = [] :=
  ⟨⟨by decide, by decide⟩, calculateSMA_insufficient [1] 2 (by decide) (by decide)⟩

/-- C10: on an absent (`null`/`undefined`) close-price array the `!data`
guard makes `calculateSMA` return the empty list for every period, instead
of raising. -/
theorem calculateSMA_absent (period : ℕ) : calculateSMA none period = [] := rfl

/-- JS strict `>` where either operand may be `undefined`: any comparison
with `undefined` is `false`. -/
def jsGT (a b : Option ℚ) : Bool :=
  match a, b with
  | some x, some y => decide (y < x)
  | _, _ => false

/-- JS `>= 0` where the operand may be `undefined`. -/
def jsGE0 (a : Option ℚ) : Bool :=
  match a with
  | some x => decide (0 ≤ x)
  | none => false

/-- candlestick chart point (`open`/`high`/`low`/`close` are Lean-reserved
or clash-prone, so the fields are `op`/`hi`/`lo`/`cl`). -/
structure CandlePoint where
  time : ℤ
  op : Option ℚ
  hi : Option ℚ
  lo : Option ℚ
  cl : Option ℚ
  deriving DecidableEq, Repr

/-- volume histogram point. -/
structure VolumePoint where
  time : ℤ
  value : Option ℚ
  color : String
  deriving DecidableEq, Repr

/-- plain `{time, value}` line point (RSI, MACD line/signal). -/
structure LinePoint where
  time : ℤ
  value : Option ℚ
  deriving DecidableEq, Repr

/-- MACD histogram point. -/
structure HistPoint where
  time : ℤ
  value : Option ℚ
  color : String
  deriving DecidableEq, Repr

/-- SMA overlay point; `time` is `Option` because `candles.t[index + 49]`
is `undefined` when the offset index runs past the timestamp array. -/
structure SmaPoint where
  time : Option ℤ
  value : ℚ
  deriving DecidableEq, Repr

/-- `candlestickData` (`script.js` lines 233-239): zip `t` with the OHLC
arrays by shared index. -/
def candlestickData (candles : CandlesPayload) : List CandlePoint :=
  candles.t.mapIdx fun index time =>
    ⟨time, candles.o[index]?, candles.h[index]?, candles.l[index]?, candles.c[index]?⟩

/-- `volumeData` (`script.js` lines 241-245): the color is the "up" color
exactly when `candles.c[index] > candles.o[index]`, else the "down" color. -/
def volumeData (candles : CandlesPayload) : List VolumePoint :=
  candles.t.mapIdx fun index time =>
    ⟨time, candles.v[index]?,
     if jsGT candles.c[index]? candles.o[index]? then upVolColor else downVolColor⟩

/-- one indicator zip `ts.map((time, index) => {time, value: vs[index]})`
over possibly-absent arrays, shared by RSI and the MACD line/signal: JS
throws when the timestamp array is absent (`.map` on `undefined`), and —
once the callback actually runs — when the value array is absent
(indexing `undefined`). -/
def indicatorZip (t : Option (List ℤ)) (vs : Option (List ℚ)) (key : String) :
    Except String (List LinePoint) :=
  match t with
  | none => .error ("TypeError: " ++ key ++ ".t is undefined")
  | some ts =>
    match vs with
    | none =>
      if ts.isEmpty then .ok []
      else .error ("TypeError: " ++ key ++ " values are undefined")
    | some v => .ok (ts.mapIdx fun index time => ⟨time, v[index]?⟩)

/-- `rsiPlotData` (`script.js` line 247). -/
def rsiPlotData (rsi : RsiPayload) : Except String (List LinePoint) :=
  indicatorZip rsi.t rsi.rsi "data.rsi"

/-- `macdLineData` (`script.js` line 248). -/
def macdLineData (macd : MacdPayload) : Except String (List LinePoint) :=
  indicatorZip macd.t macd.macd "data.macd"

/-- `macdSignalData` (`script.js` line 249). -/
def macdSignalData (macd : MacdPayload) : Except String (List LinePoint) :=
  indicatorZip macd.t macd.signal "data.macd"

/-- `macdHistData` (`script.js` lines 250-257): "up" color when the
histogram value is `>= 0`, else "down"; same JS throw behavior on
absent arrays as `indicatorZip`. -/
def macdHistData (macd : MacdPayload) : Except String (List HistPoint) :=
  match macd.t with
  | none => .error "TypeError: data.macd.t is undefined"
  | some ts =>
    match macd.macdHist with
    | none =>
      if ts.isEmpty then .ok []
      else .error "TypeError: data.macd.macdHist is undefined"
    | some v =>
      .ok (ts.mapIdx fun index time =>
        ⟨time, v[index]?,
         if jsGE0 v[index]? then upVolColor else downVolColor⟩)

/-- `sma50PlotData` (`script.js` line 267): output point `index` takes the
source timestamp at `index + 49`. -/
def sma50PlotData (smaData : List ℚ) (candlesT : List ℤ) : List SmaPoint :=
  smaData.mapIdx fun index value => ⟨candlesT[index + 49]?, value⟩

/-- `sma200PlotData` (`script.js` line 268): output point `index` takes the
source timestamp at `index + 199`. -/
def sma200PlotData (smaData : List ℚ) (candlesT : List ℤ) : List SmaPoint :=
  smaData.mapIdx fun index value => ⟨candlesT[index + 199]?, value⟩

/-- C2: the SMA alignment attaches to output point `k` the source timestamp
at offset `k + period - 1`: index `k + 50 - 1` for the SMA-50 overlay and
`k + 200 - 1` for the SMA-200 overlay; in particular point 0 takes
timestamps 49 and 199 respectively. -/
theorem sma_align_offset (derived : List ℚ) (ts : List ℤ) (k : ℕ) (v : ℚ)
    (hv : derived[k]? = some v) :
    (sma50PlotData derived ts)[k]? = some ⟨ts[k + 50 - 1]?, v⟩ ∧
    (sma200PlotData derived ts)[k]? = some ⟨ts[k + 200 - 1]?, v⟩ := by
  constructor <;>
    simp [sma50PlotData, sma200PlotData, List.getElem?_mapIdx, hv]

/-- witness for C2: with 49 (resp. 199) warm-up timestamps consumed, the
first SMA point takes timestamp index 49 (resp. 199) of the source. -/
theorem sma_align_offset_witness :
    (([(7 : ℚ)] : List ℚ)[0]? = some 7) ∧
    (sma50PlotData [7] (List.range' 0 300 1 |>.map Int.ofNat))[0]?
      = some ⟨((List.range' 0 300 1).map Int.ofNat)[0 + 50 - 1]?, 7⟩ ∧
    (sma200PlotData [7] (List.range' 0 300 1 |>.map Int.ofNat))[0]?
      = some ⟨((List.range' 0 300 1).map Int.ofNat)[0 + 200 - 1]?, 7⟩ :=
  ⟨rfl,
   (sma_align_offset [7] ((List.range' 0 300 1).map Int.ofNat) 0 7 rfl).1,
   (sma_align_offset [7] ((List.range' 0 300 1).map Int.ofNat) 0 7 rfl).2⟩

/-- C9: the volume point at an in-bounds index `i` is colored with the "up"
color exactly when `close[i] > open[i]` and the "down" color otherwise; a
tie `close[i] = open[i]` gets the "down" color, and every volume point of
any candle payload carries one of the two colors (there is no third). -/
theorem volume_color_spec (candles : CandlesPayload) (i : ℕ) (time : ℤ)
    (o cl : ℚ) (ht : candles.t[i]? = some time)
    (ho : candles.o[i]? = some o) (hc : candles.c[i]? = some cl) :
    (volumeData candles)[i]?
      = some ⟨time, candles.v[i]?, if o < cl then upVolColor else downVolColor⟩ ∧
    (cl = o → (if o < cl then upVolColor else downVolColor) = downVolColor) ∧
    ∀ p ∈ volumeData candles, p.color = upVolColor ∨ p.color = downVolColor := by
  refine ⟨?_, ?_, ?_⟩
  · simp [volumeData, List.getElem?_mapIdx, ht, ho, hc, jsGT]
  · intro hco
    rw [if_neg (by rw [hco]; exact lt_irrefl o)]
  · intro p hp
    rw [volumeData, List.mem_mapIdx] at hp
    obtain ⟨j, hj, hpj⟩ := hp
    rw [← hpj]
    by_cases hgt : jsGT candles.c[j]? candles.o[j]? = true
    · left; simp [hgt]
    · right; simp [hgt]

/-- witness for C9: a concrete candle payload with `close > open` at index 0
(up color), and ties colored down. -/
theorem volume_color_spec_witness :
    ((CandlesPayload.mk "ok" [10] [1] [3] [1] [2] [100]).t[0]? = some 10 ∧
     (CandlesPayload.mk "ok" [10] [1] [3] [1] [2] [100]).o[0]? = some 1 ∧
     (CandlesPayload.mk "ok" [10] [1] [3] [1] [2] [100]).c[0]? = some 2) ∧
    (volumeData (CandlesPayload.mk "ok" [10] [1] [3] [1] [2] [100]))[0]?
      = some ⟨10, (CandlesPayload.mk "ok" [10] [1] [3] [1] [2] [100]).v[0]?,
              if (1 : ℚ) < 2 then upVolColor else downVolColor⟩ :=
  ⟨⟨rfl, rfl, rfl⟩,
   (volume_color_spec (CandlesPayload.mk "ok" [10] [1] [3] [1] [2] [100])
     0 10 1 2 rfl rfl rfl).1⟩

/-- settlement of one `fetch(url)` call: a network-level rejection, or an
HTTP response carrying its `ok` flag and decoded JSON body. -/
inductive FetchOutcome (α : Type) where
  | reject (msg : String)
  | response (ok : Bool) (body : α)
  deriving DecidableEq, Repr

/-- the per-request chain of `script.js` lines 161-166: a rejection
propagates; a response with `!res.ok` becomes the thrown
`Network response for <key> was not ok.` error; otherwise the decoded body
is produced. -/
def reqResult {α : Type} (key : String) : FetchOutcome α → Except String α
  | .reject msg => .error msg
  | .response ok body =>
    if ok then .ok body
    else .error ("Network response for " ++ key ++ " was not ok.")

/-- a request failed at the transport level: it rejected, or its HTTP
status was not ok. -/
def isFailed {α : Type} : FetchOutcome α → Bool
  | .reject _ => true
  | .response ok _ => !ok

/-- the settlements of the seven endpoint requests of one orchestrator run,
in the object-key order of `script.js` lines 151-159. -/
structure SevenOutcomes where
  profile : FetchOutcome ProfilePayload
  quote : FetchOutcome QuotePayload
  metrics : FetchOutcome MetricsPayload
  candles : FetchOutcome CandlesPayload
  rsi : FetchOutcome RsiPayload
  macd : FetchOutcome MacdPayload
  news : FetchOutcome (List NewsItem)
  deriving DecidableEq, Repr

/-- `fetchAllEndpoints` (`script.js` lines 146-177): `Promise.all` over the
seven request chains — any failure fails the whole call — then the reduce
into a keyed bundle and the `candles.s !== 'ok'` status gate.  (JS
`Promise.all` rejects with the first error to settle in time; this untimed
model reports the first error in key order, which only affects which
message is carried, never whether the call fails.) -/
def fetchAllEndpoints (r : SevenOutcomes) : Except String Bundle :=
  match reqResult "profile" r.profile with
  | .error e => .error e
  | .ok p =>
    match reqResult "quote" r.quote with
    | .error e => .error e
    | .ok q =>
      match reqResult "metrics" r.metrics with
      | .error e => .error e
      | .ok m =>
        match reqResult "candles" r.candles with
        | .error e => .error e
        | .ok c =>
          match reqResult "rsi" r.rsi with
          | .error e => .error e
          | .ok rs =>
            match reqResult "macd" r.macd with
            | .error e => .error e
            | .ok mc =>
              match reqResult "news" r.news with
              | .error e => .error e
              | .ok n =>
                if c.s ≠ "ok" then .error "Failed to fetch historical candle data."
                else .ok ⟨p, q, m, c, rs, mc, n⟩

/-- a transport-failed request never yields an `ok` chain result. -/
lemma reqResult_failed {α : Type} (key : String) (o : FetchOutcome α)
    (h : isFailed o = true) : ∃ e, reqResult key o = Except.error e := by
  cases o with
  | reject msg => exact ⟨msg, rfl⟩
  | response ok body =>
    cases ok with
    | false => exact ⟨_, rfl⟩
    | true => simp [isFailed] at h

/-- an `ok` chain result means the request did not fail at transport level. -/
lemma reqResult_ok_not_failed {α : Type} (key : String) (o : FetchOutcome α)
    (a : α) (h : reqResult key o = Except.ok a) : isFailed o = false := by
  cases o with
  | reject msg => simp [reqResult] at h
  | response ok body =>
    cases ok with
    | false => simp [reqResult] at h
    | true => rfl

/-- characterization of a successful orchestrator run: the bundle is
produced exactly when every request chain succeeded with the bundle's
payloads and the candles status sentinel is `"ok"`. -/
lemma fetchAllEndpoints_ok_iff (r : SevenOutcomes) (b : Bundle) :
    fetchAllEndpoints r = Except.ok b ↔
      reqResult "profile" r.profile = Except.ok b.profile ∧
      reqResult "quote" r.quote = Except.ok b.quote ∧
      reqResult "metrics" r.metrics = Except.ok b.metrics ∧
      reqResult "candles" r.candles = Except.ok b.candles ∧
      reqResult "rsi" r.rsi = Except.ok b.rsi ∧
      reqResult "macd" r.macd = Except.ok b.macd ∧
      reqResult "news" r.news = Except.ok b.news ∧
      b.candles.s = "ok" := by
  constructor
  · intro h
    unfold fetchAllEndpoints at h
    repeat' split at h
    any_goals exact Except.noConfusion h
    cases h
    simp_all
  · rintro ⟨hp, hq, hm, hc, hrs, hmc, hn, hs⟩
    unfold fetchAllEndpoints
    simp only [hp, hq, hm, hc, hrs, hmc, hn]
    rw [if_neg (by simp [hs])]

/-- C3: the orchestrator is all-or-nothing — if any one of the seven
requests fails at the transport level the run produces an error and no
bundle, even when the other six succeed; and whenever a bundle is produced,
all seven request chains succeeded and the bundle holds their payloads. -/
theorem fetchAllEndpoints_all_or_nothing (r : SevenOutcomes)
    (h : isFailed r.profile = true ∨ isFailed r.quote = true ∨
         isFailed r.metrics = true ∨ isFailed r.candles = true ∨
         isFailed r.rsi = true ∨ isFailed r.macd = true ∨
         isFailed r.news = true) :
    (∃ e, fetchAllEndpoints r = Except.error e) ∧
    ∀ b, fetchAllEndpoints r = Except.ok b →
      reqResult "profile" r.profile = Except.ok b.profile ∧
      reqResult "quote" r.quote = Except.ok b.quote ∧
      reqResult "metrics" r.metrics = Except.ok b.metrics ∧
      reqResult "candles" r.candles = Except.ok b.candles ∧
      reqResult "rsi" r.rsi = Except.ok b.rsi ∧
      reqResult "macd" r.macd = Except.ok b.macd ∧
      reqResult "news" r.news = Except.ok b.news := by
  constructor
  · cases hres : fetchAllEndpoints r with
    | error e => exact ⟨e, rfl⟩
    | ok b =>
      exfalso
      obtain ⟨hp, hq, hm, hc, hrs, hmc, hn, _⟩ :=
        (fetchAllEndpoints_ok_iff r b).mp hres
      rcases h with h | h | h | h | h | h | h
      · rw [reqResult_ok_not_failed _ _ _ hp] at h; exact absurd h (by simp)
      · rw [reqResult_ok_not_failed _ _ _ hq] at h; exact absurd h (by simp)
      · rw [reqResult_ok_not_failed _ _ _ hm] at h; exact absurd h (by simp)
      · rw [reqResult_ok_not_failed _ _ _ hc] at h; exact absurd h (by simp)
      · rw [reqResult_ok_not_failed _ _ _ hrs] at h; exact absurd h (by simp)
      · rw [reqResult_ok_not_failed _ _ _ hmc] at h; exact absurd h (by simp)
      · rw [reqResult_ok_not_failed _ _ _ hn] at h; exact absurd h (by simp)
  · intro b hb
    obtain ⟨hp, hq, hm, hc, hrs, hmc, hn, _⟩ :=
      (fetchAllEndpoints_ok_iff r b).mp hb
    exact ⟨hp, hq, hm, hc, hrs, hmc, hn⟩

/-- C4: transport success everywhere does not suffice — a candles payload
whose status sentinel is not `"ok"` still fails the run; and conversely
every produced bundle has candles status `"ok"`. -/
theorem fetchAllEndpoints_status_gate (r : SevenOutcomes)
    (hc : ∃ c, reqResult "candles" r.candles = Except.ok c ∧ c.s ≠ "ok") :
    (∃ e, fetchAllEndpoints r = Except.error e) ∧
    ∀ b, fetchAllEndpoints r = Except.ok b → b.candles.s = "ok" := by
  constructor
  · cases hres : fetchAllEndpoints r with
    | error e => exact ⟨e, rfl⟩
    | ok b =>
      exfalso
      obtain ⟨c, hcok, hcs⟩ := hc
      obtain ⟨_, _, _, hcb, _, _, _, hs⟩ := (fetchAllEndpoints_ok_iff r b).mp hres
      rw [hcok] at hcb
      cases hcb
      exact hcs hs
  · intro b hb
    exact ((fetchAllEndpoints_ok_iff r b).mp hb).2.2.2.2.2.2.2

/-- sample payloads for concrete orchestrator runs. -/
def sampleProfile : ProfilePayload := ⟨"Apple Inc", "AAPL", "", "", "", ""⟩

/-- sample quote payload. -/
def sampleQuote : QuotePayload := ⟨100⟩

/-- sample metrics payload. -/
def sampleMetrics : MetricsPayload := ⟨some ⟨1000, 120, 80, 25⟩⟩

/-- sample candles payload with status sentinel `"ok"`. -/
def sampleCandles : CandlesPayload := ⟨"ok", [10], [1], [3], [1], [2], [100]⟩

/-- sample candles payload whose status sentinel is not `"ok"`. -/
def sampleBadCandles : CandlesPayload := ⟨"no_data", [], [], [], [], [], []⟩

/-- sample RSI payload with both arrays present. -/
def sampleRsi : RsiPayload := ⟨some [10], some [55]⟩

/-- sample MACD payload with all arrays present. -/
def sampleMacd : MacdPayload := ⟨some [10], some [1], some [2], some [-1]⟩

/-- sample RSI payload in the `no_data` shape: a transport-ok body that
carries no timestamp or value arrays. -/
def noDataRsi : RsiPayload := ⟨none, none⟩

/-- an orchestrator run where the `profile` request rejects and the other
six succeed at the transport level. -/
def sevenOneFailed : SevenOutcomes :=
  ⟨.reject "boom", .response true sampleQuote, .response true sampleMetrics,
   .response true sampleCandles, .response true sampleRsi,
   .response true sampleMacd, .response true []⟩

/-- an orchestrator run where all seven requests are transport-successes
but the candles payload's status sentinel is not `"ok"`. -/
def sevenBadStatus : SevenOutcomes :=
  ⟨.response true sampleProfile, .response true sampleQuote,
   .response true sampleMetrics, .response true sampleBadCandles,
   .response true sampleRsi, .response true sampleMacd, .response true []⟩

/-- witness for C3: with the `profile` request rejected and the other six
successful, the orchestrator produces an error and no bundle. -/
theorem fetchAllEndpoints_all_or_nothing_witness :
    (isFailed sevenOneFailed.profile = true ∨
     isFailed sevenOneFailed.quote = true ∨
     isFailed sevenOneFailed.metrics = true ∨
     isFailed sevenOneFailed.candles = true ∨
     isFailed sevenOneFailed.rsi = true ∨
     isFailed sevenOneFailed.macd = true ∨
     isFailed sevenOneFailed.news = true) ∧
    ∃ e, fetchAllEndpoints sevenOneFailed = Except.error e :=
  ⟨Or.inl rfl,
   (fetchAllEndpoints_all_or_nothing sevenOneFailed (Or.inl rfl)).1⟩

/-- witness for C4: all seven transport-successes but candles status
`"no_data"` still fails the run. -/
theorem fetchAllEndpoints_status_gate_witness :
    (∃ c, reqResult "candles" sevenBadStatus.candles = Except.ok c ∧ c.s ≠ "ok") ∧
    ∃ e, fetchAllEndpoints sevenBadStatus = Except.error e :=
  ⟨⟨sampleBadCandles, rfl, by decide⟩,
   (fetchAllEndpoints_status_gate sevenBadStatus
     ⟨sampleBadCandles, rfl, by decide⟩).1⟩

/-- the rendered dashboard sections and chart series.  Each field holds the
data last handed to the corresponding DOM section or chart series (`none`
before the first successful cycle). -/
structure DashState where
  profileSection : Option ProfilePayload
  metricsSection : Option (MetricFields × QuotePayload)
  newsSection : Option (List NewsItem)
  candlestick : Option (List CandlePoint)
  volume : Option (List VolumePoint)
  rsiSeries : Option (List LinePoint)
  macdLineSeries : Option (List LinePoint)
  macdSignalSeries : Option (List LinePoint)
  macdHistSeries : Option (List HistPoint)
  sma50 : Option (List SmaPoint)
  sma200 : Option (List SmaPoint)
  deriving DecidableEq, Repr

/-- the empty dashboard before any successful cycle. -/
def emptyDash : DashState :=
  ⟨none, none, none, none, none, none, none, none, none, none, none⟩

/-- `updateProfileUI` (`script.js` lines 182-193): renders the profile
header and section from the profile payload alone (the `quote` parameter
of the source is passed but unread); total, since every field access sits
behind a `||` default. -/
def updateProfileUI (profile : ProfilePayload) (_quote : QuotePayload)
    (st : DashState) : DashState :=
  { st with profileSection := some profile }

/-- `updateMetricsUI` (`script.js` lines 195-219): reads
`metricsData.metric` and dereferences its fields while building the
template string, before any DOM assignment — so a payload without a
`metric` object throws and leaves the metrics section untouched. -/
def updateMetricsUI (metricsData : MetricsPayload) (quoteData : QuotePayload)
    (st : DashState) : Except String DashState :=
  match metricsData.metric with
  | none => .error "TypeError: metricsData.metric is undefined"
  | some m => .ok { st with metricsSection := some (m, quoteData) }

/-- `updateNewsUI` (`script.js` lines 221-229): renders the top 5
articles. -/
def updateNewsUI (news : List NewsItem) (st : DashState) : DashState :=
  { st with newsSection := some (news.take 5) }

/-- `updateChartsUI` (`script.js` lines 231-274).  All fallible series
computations (lines 233-257) run before the first `setData` call
(line 259), and the SMA plot computations (lines 267-268) are total; so
the function either throws with no chart series replaced, or replaces all
eight at once. -/
def updateChartsUI (data : Bundle) (sma50Data sma200Data : List ℚ)
    (st : DashState) : Except String DashState :=
  let cd := candlestickData data.candles
  let vd := volumeData data.candles
  match rsiPlotData data.rsi with
  | .error e => .error e
  | .ok rd =>
    match macdLineData data.macd with
    | .error e => .error e
    | .ok ld =>
      match macdSignalData data.macd with
      | .error e => .error e
      | .ok sd =>
        match macdHistData data.macd with
        | .error e => .error e
        | .ok hd =>
          .ok { st with
            candlestick := some cd
            volume := some vd
            rsiSeries := some rd
            macdLineSeries := some ld
            macdSignalSeries := some sd
            macdHistSeries := some hd
            sma50 := some (sma50PlotData sma50Data data.candles.t)
            sma200 := some (sma200PlotData sma200Data data.candles.t) }

/-- the body of `fetchAndDisplayDashboard`'s try block after the
orchestrator (`script.js` lines 119-126): profile, metrics, news, then
the two SMA computations, then `updateChartsUI`.  The result carries the
dashboard as it stands when the block finishes or throws — a throw
mid-way keeps the sections already rendered (the catch at line 130 only
logs), which is how a partially-updated render arises. -/
def processBundle (data : Bundle) (st : DashState) : DashState × Option String :=
  let st1 := updateProfileUI data.profile data.quote st
  match updateMetricsUI data.metrics data.quote st1 with
  | .error e => (st1, some e)
  | .ok st2 =>
    let st3 := updateNewsUI data.news st2
    let sma50Data := calculateSMA (some data.candles.c) 50
    let sma200Data := calculateSMA (some data.candles.c) 200
    match updateChartsUI data sma50Data sma200Data st3 with
    | .error e => (st3, some e)
    | .ok st4 => (st4, none)

/-- the coordinator's application state: the global `state` object plus the
rendered dashboard, an in-flight cycle counter and a counter of
orchestrator invocations. -/
structure AppState where
  hasApiKey : Bool
  isLoading : Bool
  currentTicker : String
  dash : DashState
  inFlight : ℕ
  orchCalls : ℕ
  deriving DecidableEq, Repr

/-- the initial global state of `script.js` lines 13-17 (ticker `'AAPL'`,
not loading) with an empty dashboard. -/
def initState : AppState := ⟨false, false, "AAPL", emptyDash, 0, 0⟩

/-- the observable events of the coordinator: a fetch-cycle request (a
click on the submit button, or the call at the end of a successful key
submission), a key submission (`handleKeySubmission`), and the settlement
of the in-flight cycle's orchestrator promise. -/
inductive Ev where
  | request (tickerInput : String)
  | saveKey (userKey tickerInput : String)
  | settle (outcome : Except String Bundle)

/-- JS `String.prototype.trim`: strip leading and trailing whitespace
(executable over the character list, standing in for the built-in
`String.trim`). -/
def jsTrim (s : String) : String :=
  ⟨((s.data.dropWhile Char.isWhitespace).reverse.dropWhile
      Char.isWhitespace).reverse⟩

/-- the synchronous request phase of `fetchAndDisplayDashboard`
(`script.js` lines 103-115): the `state.isLoading || !state.apiKey` guard
returns unchanged; otherwise the loading flag is set, the ticker
uppercased and the orchestrator launched. -/
def requestStep (s : AppState) (tickerInput : String) : AppState :=
  if s.isLoading || !s.hasApiKey then s
  else
    { s with
      isLoading := true
      currentTicker := tickerInput.toUpper
      inFlight := s.inFlight + 1
      orchCalls := s.orchCalls + 1 }

/-- one step of the coordinator.  A `request` runs the guard of
`fetchAndDisplayDashboard`.  A `saveKey` runs `handleKeySubmission`
(`script.js` lines 284-296): an empty trimmed key only alerts; otherwise
the key is stored (unlocking the dashboard) and `fetchAndDisplayDashboard`
is called, whose guard still applies.  A `settle` of the in-flight cycle
runs the try block's post-orchestrator body on success, leaves the
dashboard untouched on an orchestrator error, and in both cases clears the
loading flag (the `finally` block at line 134). -/
def step (s : AppState) : Ev → AppState
  | .request tickerInput => requestStep s tickerInput
  | .saveKey userKey tickerInput =>
    if (jsTrim userKey).isEmpty then s
    else requestStep { s with hasApiKey := true } tickerInput
  | .settle outcome =>
    if s.isLoading then
      match outcome with
      | .error _ => { s with isLoading := false, inFlight := s.inFlight - 1 }
      | .ok b =>
        { s with
          isLoading := false
          inFlight := s.inFlight - 1
          dash := (processBundle b s.dash).1 }
    else s

/-- a trace of coordinator events. -/
def run (s : AppState) (evs : List Ev) : AppState := evs.foldl step s

/-- a coordinator state with one cycle in flight over the initial (empty)
dashboard. -/
def loadingState : AppState :=
  { initState with hasApiKey := true, isLoading := true, inFlight := 1, orchCalls := 1 }

/-- a bundle assembled from seven transport-ok responses whose rsi body is
the no-data shape without arrays: it passes the orchestrator's candles
status gate, but `updateChartsUI` throws on `data.rsi.t.map`. -/
def badRsiBundle : Bundle :=
  ⟨sampleProfile, sampleQuote, sampleMetrics, sampleCandles, noDataRsi,
   sampleMacd, []⟩

/-- counterexample to C5 as stated: a cycle whose orchestrator succeeds
with a transport-ok rsi payload lacking its timestamp array fails during
processing (`data.rsi.t.map` throws at `script.js` line 247), yet the
rendered dashboard is NOT left as it was before the cycle — the profile
section was already replaced (line 119) while no chart series was touched:
a partially-updated render. -/
theorem cycle_partial_render_cex :
    (processBundle badRsiBundle loadingState.dash).2.isSome = true ∧
    (step loadingState (.settle (.ok badRsiBundle))).dash.profileSection
      = some sampleProfile ∧
    (step loadingState (.settle (.ok badRsiBundle))).dash.rsiSeries = none ∧
    (step loadingState (.settle (.ok badRsiBundle))).dash ≠ loadingState.dash := by
  refine ⟨rfl, rfl, rfl, by decide⟩

/-- C5 (amended): launching a cycle does not touch the dashboard, and a
cycle whose orchestrator fails leaves it exactly as it was.  A cycle whose
orchestrator succeeds renders the try block's result: when the metrics
payload carries its `metric` object and every indicator series computation
succeeds, all sections and all eight chart series are replaced at once;
but when a processing stage throws after the orchestrator succeeded, the
render is partial — the sections rendered before the throwing stage keep
their new data (the profile section always is replaced) while no chart
series is touched (all chart-series data is computed before the first
`setData` call). -/
theorem cycle_atomic_amended (s : AppState) (hs : s.isLoading = true) :
    (∀ t, (step s (.request t)).dash = s.dash) ∧
    (∀ e, (step s (.settle (.error e))).dash = s.dash) ∧
    (∀ b, (step s (.settle (.ok b))).dash = (processBundle b s.dash).1) ∧
    (∀ b m rd ld sd hd, b.metrics.metric = some m →
      rsiPlotData b.rsi = Except.ok rd →
      macdLineData b.macd = Except.ok ld →
      macdSignalData b.macd = Except.ok sd →
      macdHistData b.macd = Except.ok hd →
      processBundle b s.dash =
        (⟨some b.profile, some (m, b.quote), some (b.news.take 5),
          some (candlestickData b.candles), some (volumeData b.candles),
          some rd, some ld, some sd, some hd,
          some (sma50PlotData (calculateSMA (some b.candles.c) 50) b.candles.t),
          some (sma200PlotData (calculateSMA (some b.candles.c) 200) b.candles.t)⟩,
         none)) ∧
    (∀ b, (processBundle b s.dash).2.isSome = true →
      (processBundle b s.dash).1.profileSection = some b.profile ∧
      (processBundle b s.dash).1.candlestick = s.dash.candlestick ∧
      (processBundle b s.dash).1.volume = s.dash.volume ∧
      (processBundle b s.dash).1.rsiSeries = s.dash.rsiSeries ∧
      (processBundle b s.dash).1.macdLineSeries = s.dash.macdLineSeries ∧
      (processBundle b s.dash).1.macdSignalSeries = s.dash.macdSignalSeries ∧
      (processBundle b s.dash).1.macdHistSeries = s.dash.macdHistSeries ∧
      (processBundle b s.dash).1.sma50 = s.dash.sma50 ∧
      (processBundle b s.dash).1.sma200 = s.dash.sma200) := by
  refine ⟨?_, ?_, ?_, ?_, ?_⟩
  · intro t
    simp [step, requestStep, hs]
  · intro e
    simp [step, hs]
  · intro b
    simp [step, hs]
  · intro b m rd ld sd hd hm hr hl hsg hh
    simp only [processBundle, updateProfileUI, updateMetricsUI, updateNewsUI,
      updateChartsUI, hm, hr, hl, hsg, hh]
  · intro b hsome
    simp only [processBundle, updateProfileUI, updateMetricsUI, updateNewsUI]
      at hsome ⊢
    cases hm : b.metrics.metric with
    | none => simp only [hm] at hsome ⊢; simp
    | some m =>
      simp only [hm] at hsome ⊢
      cases hch : updateChartsUI b (calculateSMA (some b.candles.c) 50)
          (calculateSMA (some b.candles.c) 200)
          { s.dash with
            profileSection := some b.profile
            metricsSection := some (m, b.quote)
            newsSection := some (b.news.take 5) } with
      | error e => simp only [hch] at hsome ⊢; simp
      | ok st4 => simp only [hch] at hsome ⊢; simp at hsome

/-- witness for C5 (amended) at the in-flight state `loadingState`: an
orchestrator error leaves the dashboard unchanged, and the failing
`badRsiBundle` cycle replaces the profile section while leaving the
candlestick series untouched. -/
theorem cycle_atomic_amended_witness :
    loadingState.isLoading = true ∧
    (processBundle badRsiBundle loadingState.dash).2.isSome = true ∧
    (step loadingState (.settle (.error "boom"))).dash = loadingState.dash ∧
    (processBundle badRsiBundle loadingState.dash).1.profileSection
      = some badRsiBundle.profile ∧
    (processBundle badRsiBundle loadingState.dash).1.candlestick
      = loadingState.dash.candlestick :=
  ⟨rfl, rfl,
   (cycle_atomic_amended loadingState rfl).2.1 "boom",
   ((cycle_atomic_amended loadingState rfl).2.2.2.2 badRsiBundle rfl).1,
   ((cycle_atomic_amended loadingState rfl).2.2.2.2 badRsiBundle rfl).2.1⟩

/-- the coordinator's loading-flag invariant: a cycle is in flight exactly
while `isLoading` is set. -/
def loadInv (s : AppState) : Prop :=
  s.inFlight = if s.isLoading then 1 else 0

/-- the request phase preserves the loading-flag invariant. -/
lemma requestStep_loadInv (s : AppState) (t : String) (h : loadInv s) :
    loadInv (requestStep s t) := by
  cases hsl : s.isLoading <;> cases hk : s.hasApiKey <;>
    simp_all [loadInv, requestStep]

/-- every coordinator step preserves the loading-flag invariant. -/
lemma step_loadInv (s : AppState) (e : Ev) (h : loadInv s) :
    loadInv (step s e) := by
  cases e with
  | request t => exact requestStep_loadInv s t h
  | saveKey k t =>
    by_cases hk : (jsTrim k).isEmpty = true
    · simpa [step, hk] using h
    · simp only [step]
      rw [if_neg hk]
      exact requestStep_loadInv _ t h
  | settle outcome =>
    cases outcome <;> cases hsl : s.isLoading <;> simp_all [loadInv, step]

/-- C7: a fetch-cycle request while `isLoading` is a complete no-op — the
state (dashboard, loading flag, in-flight cycle, orchestrator-call count)
is unchanged, so no second orchestrator call is issued and the in-flight
cycle is untouched.  A key submission during a cycle likewise issues no
orchestrator call and touches neither the in-flight cycle nor the
dashboard (its internal `fetchAndDisplayDashboard` call hits the same
guard).  And along every event trace from the initial state — including
traces whose key submissions start real cycles — a cycle is in flight
exactly while `isLoading` is set, so at most one cycle is ever in
flight. -/
theorem reentrancy_guard (s : AppState) (h : s.isLoading = true) :
    (∀ t, step s (.request t) = s) ∧
    (∀ k t, (step s (.saveKey k t)).orchCalls = s.orchCalls ∧
            (step s (.saveKey k t)).inFlight = s.inFlight ∧
            (step s (.saveKey k t)).isLoading = true ∧
            (step s (.saveKey k t)).dash = s.dash) ∧
    (∀ evs, (run initState evs).inFlight
      = if (run initState evs).isLoading then 1 else 0) ∧
    (∀ evs, (run initState evs).inFlight ≤ 1) := by
  have hinv : ∀ evs, loadInv (run initState evs) := by
    intro evs
    have hrun : ∀ (s₀ : AppState), loadInv s₀ → loadInv (run s₀ evs) := by
      induction evs with
      | nil => intro s₀ h₀; exact h₀
      | cons e rest ih =>
        intro s₀ h₀
        exact ih (step s₀ e) (step_loadInv s₀ e h₀)
    exact hrun initState rfl
  refine ⟨?_, ?_, ?_, ?_⟩
  · intro t
    simp [step, requestStep, h]
  · intro k t
    by_cases hk : (jsTrim k).isEmpty = true
    · simp [step, hk, h]
    · simp [step, hk, requestStep, h]
  · intro evs
    exact hinv evs
  · intro evs
    have hi := hinv evs
    rw [loadInv] at hi
    split at hi <;> omega

/-- witness for C7: submitting a key from the initial state starts a real
cycle (loading set, one cycle in flight); a second request against that
reachable in-flight state is rejected unchanged by the loading guard, and
the whole trace keeps at most one cycle in flight. -/
theorem reentrancy_guard_witness :
    (run initState [.saveKey "abc" "aapl"]).isLoading = true ∧
    (run initState [.saveKey "abc" "aapl"]).inFlight = 1 ∧
    step (run initState [.saveKey "abc" "aapl"]) (.request "msft")
      = run initState [.saveKey "abc" "aapl"] ∧
    (run initState [.saveKey "abc" "aapl", .request "msft",
      .settle (.error "boom")]).inFlight ≤ 1 :=
  ⟨rfl, rfl,
   (reentrancy_guard (run initState [.saveKey "abc" "aapl"]) rfl).1 "msft",
   (reentrancy_guard (run initState [.saveKey "abc" "aapl"]) rfl).2.2.2
     [.saveKey "abc" "aapl", .request "msft", .settle (.error "boom")]⟩

/-- the latest settle time among a list of timed request results. -/
def settleMax {α : Type} (rs : List (ℕ × Except String α)) : ℕ :=
  (rs.map Prod.fst).foldr max 0

/-- the earliest rejection among a list of timed request results, if any. -/
def earliestError {α : Type} : List (ℕ × Except String α) → Option (ℕ × String)
  | [] => none
  | (t, Except.error e) :: rest =>
    match earliestError rest with
    | none => some (t, e)
    | some (t', e') => if t' < t then some (t', e') else some (t, e)
  | (_, Except.ok _) :: rest => earliestError rest

/-- the fulfilled values of a list of timed request results. -/
def okResults {α : Type} (rs : List (ℕ × Except String α)) : List α :=
  rs.filterMap fun x => x.2.toOption

/-- timed model of JS `Promise.all` over already-issued promises, each
tagged with the time at which it settles: the combined promise rejects at
the moment the earliest rejection settles (it does not wait for the others,
though they stay in flight — there is no cancellation), and fulfills at the
moment the last promise fulfills when none reject. -/
def promiseAll {α : Type} (rs : List (ℕ × Except String α)) :
    ℕ × Except String (List α) :=
  match earliestError rs with
  | some (t, e) => (t, Except.error e)
  | none => (settleMax rs, Except.ok (okResults rs))

/-- timed view of the orchestrator's fan-out (`script.js` lines 161-168):
every request chain in the list is issued (mapped) before the single
`Promise.all` combination, and the combined settle time is `promiseAll`'s. -/
def fetchAllEndpointsTimed {α : Type}
    (reqs : List (String × ℕ × FetchOutcome α)) : ℕ × Except String (List α) :=
  promiseAll (reqs.map fun x => (x.2.1, reqResult x.1 x.2.2))

/-- a seven-request run in which the `profile` request rejects at time 1
while the six others fulfill only at time 5. -/
def cexReqs : List (String × ℕ × FetchOutcome ℕ) :=
  [("profile", 1, .reject "boom"), ("quote", 5, .response true 0),
   ("metrics", 5, .response true 0), ("candles", 5, .response true 0),
   ("rsi", 5, .response true 0), ("macd", 5, .response true 0),
   ("news", 5, .response true 0)]

/-- counterexample to C8 as stated: in a seven-request run whose `profile`
request rejects at time 1 while the six others settle at time 5, the
orchestrator (`Promise.all`) produces its failure already at time 1 —
before the remaining six requests have settled. -/
theorem fetchAllTimed_no_barrier_cex :
    cexReqs.length = 7 ∧
    fetchAllEndpointsTimed cexReqs = (1, Except.error "boom") ∧
    ("quote", 5, FetchOutcome.response true 0) ∈ cexReqs ∧
    (fetchAllEndpointsTimed cexReqs).1 < 5 := by
  refine ⟨rfl, rfl, by decide, by decide⟩

/-- every settle time in a timed result list is at most `settleMax`. -/
lemma le_settleMax {α : Type} (rs : List (ℕ × Except String α)) :
    ∀ x ∈ rs, x.1 ≤ settleMax rs := by
  induction rs with
  | nil => intro x hx; cases hx
  | cons a rest ih =>
    intro x hx
    rw [List.mem_cons] at hx
    have hmax : settleMax (a :: rest) = max a.1 (settleMax rest) := rfl
    cases hx with
    | inl h => rw [h, hmax]; exact le_max_left _ _
    | inr h => rw [hmax]; exact le_trans (ih x h) (le_max_right _ _)

/-- if `earliestError` finds nothing, the list contains no rejection. -/
lemma earliestError_none_no_err {α : Type} (rs : List (ℕ × Except String α))
    (h : earliestError rs = none) :
    ∀ t e, (t, Except.error e) ∉ rs := by
  induction rs with
  | nil => intro t e hx; cases hx
  | cons a rest ih =>
    obtain ⟨t0, r0⟩ := a
    cases r0 with
    | ok v0 =>
      simp only [earliestError] at h
      intro t e hx
      rcases List.mem_cons.mp hx with hh | hh
      · simp at hh
      · exact ih h t e hh
    | error e0 =>
      simp only [earliestError] at h
      cases hrest : earliestError rest with
      | none =>
        rw [hrest] at h
        exact Option.noConfusion (show some (t0, e0) = none from h)
      | some p =>
        rw [hrest] at h
        obtain ⟨t1, e1⟩ := p
        have h' : (if t1 < t0 then some (t1, e1) else some (t0, e0)) = none := h
        by_cases hlt : t1 < t0
        · rw [if_pos hlt] at h'; exact Option.noConfusion h'
        · rw [if_neg hlt] at h'; exact Option.noConfusion h'

/-- `earliestError` returns a rejection of the list, and the earliest one. -/
lemma earliestError_spec {α : Type} (rs : List (ℕ × Except String α))
    (t : ℕ) (e : String) (h : earliestError rs = some (t, e)) :
    (t, Except.error e) ∈ rs ∧
    ∀ t' e', (t', Except.error e') ∈ rs → t ≤ t' := by
  induction rs generalizing t e with
  | nil => cases h
  | cons a rest ih =>
    obtain ⟨t0, r0⟩ := a
    cases r0 with
    | ok v0 =>
      simp only [earliestError] at h
      obtain ⟨hmem, hmin⟩ := ih t e h
      refine ⟨List.mem_cons_of_mem _ hmem, ?_⟩
      intro t' e' hx
      rcases List.mem_cons.mp hx with hh | hh
      · simp at hh
      · exact hmin t' e' hh
    | error e0 =>
      simp only [earliestError] at h
      cases hrest : earliestError rest with
      | none =>
        rw [hrest] at h
        have h' : some (t0, e0) = some (t, e) := h
        obtain ⟨rfl, rfl⟩ : t0 = t ∧ e0 = e := by simpa using h'
        refine ⟨List.mem_cons_self _ _, ?_⟩
        intro t' e' hx
        rcases List.mem_cons.mp hx with hh | hh
        · obtain ⟨rfl, -⟩ : t' = t0 ∧ e' = e0 := by simpa using hh
          exact le_refl _
        · exact absurd hh (earliestError_none_no_err rest hrest t' e')
      | some p =>
        rw [hrest] at h
        obtain ⟨t1, e1⟩ := p
        have h' : (if t1 < t0 then some (t1, e1) else some (t0, e0)) = some (t, e) := h
        obtain ⟨hmem1, hmin1⟩ := ih t1 e1 hrest
        by_cases hlt : t1 < t0
        · rw [if_pos hlt] at h'
          obtain ⟨rfl, rfl⟩ : t1 = t ∧ e1 = e := by simpa using h'
          refine ⟨List.mem_cons_of_mem _ hmem1, ?_⟩
          intro t' e' hx
          rcases List.mem_cons.mp hx with hh | hh
          · obtain ⟨rfl, -⟩ : t' = t0 ∧ e' = e0 := by simpa using hh
            exact le_of_lt hlt
          · exact hmin1 t' e' hh
        · rw [if_neg hlt] at h'
          obtain ⟨rfl, rfl⟩ : t0 = t ∧ e0 = e := by simpa using h'
          refine ⟨List.mem_cons_self _ _, ?_⟩
          intro t' e' hx
          rcases List.mem_cons.mp hx with hh | hh
          · obtain ⟨rfl, -⟩ : t' = t0 ∧ e' = e0 := by simpa using hh
            exact le_refl _
          · exact le_trans (not_lt.mp hlt) (hmin1 t' e' hh)

/-- C8 (amended): the seven request chains are all issued before the single
combination point; when every request succeeds the orchestrator produces
its result only at the latest settle time (a true fan-in barrier); but when
some request fails, the orchestrator produces its failure already at the
earliest rejection's settle time — possibly before the remaining requests
have settled (they stay in flight, uncancelled, and the first error
determines the overall outcome). -/
theorem fetchAllTimed_settle_spec {α : Type}
    (reqs : List (String × ℕ × FetchOutcome α)) :
    (earliestError (reqs.map fun x => (x.2.1, reqResult x.1 x.2.2)) = none →
      ∀ x ∈ reqs, x.2.1 ≤ (fetchAllEndpointsTimed reqs).1) ∧
    (∀ t e,
      earliestError (reqs.map fun x => (x.2.1, reqResult x.1 x.2.2)) = some (t, e) →
      fetchAllEndpointsTimed reqs = (t, Except.error e) ∧
      (t, Except.error e) ∈ (reqs.map fun x => (x.2.1, reqResult x.1 x.2.2)) ∧
      ∀ t' e', (t', Except.error e') ∈ (reqs.map fun x => (x.2.1, reqResult x.1 x.2.2))
        → t ≤ t') := by
  constructor
  · intro hnone x hx
    rw [fetchAllEndpointsTimed, promiseAll, hnone]
    exact le_settleMax _ (x.2.1, reqResult x.1 x.2.2)
      (List.mem_map_of_mem _ hx)
  · intro t e hsome
    obtain ⟨hmem, hmin⟩ := earliestError_spec _ t e hsome
    refine ⟨?_, hmem, hmin⟩
    rw [fetchAllEndpointsTimed, promiseAll, hsome]

/-- witness for C8 (amended) at the concrete run `cexReqs`: the earliest
rejection is `profile` at time 1 and the orchestrator settles there with
its error. -/
theorem fetchAllTimed_settle_spec_witness :
    earliestError (cexReqs.map fun x => (x.2.1, reqResult x.1 x.2.2))
      = some (1, "boom") ∧
    fetchAllEndpointsTimed cexReqs = (1, Except.error "boom") :=
  ⟨by decide,
   ((fetchAllTimed_settle_spec cexReqs).2 1 "boom" (by decide)).1⟩

end StockDash
